import Mathlib

/-!
Shallow embedding of the dragonffi python-binding marshaling core
(`bindings/python/cobj.cpp`): type descriptors, typed memory handles,
value get/set, argument conversion for native calls, and casts.

Conventions of the embedding:
* Machine memory is byte-addressed, `Mem : Nat → Nat`; a read always
  normalizes a cell modulo 256.  Multi-byte scalars are stored
  little-endian.
* A scalar host value is represented by the bit pattern of the C value it
  marshals to (a `Nat` below `2 ^ (8 * size)`); this is exactly what the
  raw `*TPtr = Obj.cast<T>()` store and the `py::cast(*TPtr)` load
  preserve.  Floating-point values are thus carried as their IEEE bit
  patterns.
* The platform is 64-bit: `sizeof(uintptr_t) = 8` (`ptrSize`).
* C++ exceptions are modeled with `Except Err`; `Err` distinguishes the
  `TypeError` exception type of the bindings from a pybind cast failure
  and from a failed `assert`.
-/

set_option autoImplicit false
set_option linter.unusedVariables false

namespace Cobj

/-- `sizeof(uintptr_t)` on the modeled (64-bit) platform. -/
def ptrSize : Nat := 8

/-- The basic-type kinds handled by the switch of `getFormatDescriptor`. -/
inductive BasicKind where
  | char
  | uint8 | uint16 | uint32 | uint64
  | int8 | int16 | int32 | int64
  | float32 | float64
  deriving DecidableEq, Repr

/-- Byte size of a basic kind (`BasicType::getSize`). -/
def BasicKind.size : BasicKind → Nat
  | .char | .uint8 | .int8 => 1
  | .uint16 | .int16 => 2
  | .uint32 | .int32 | .float32 => 4
  | .uint64 | .int64 | .float64 => 8

/-- Whether the kind is an integer (or char) kind, as opposed to a
floating-point kind. -/
def BasicKind.isInteger : BasicKind → Bool
  | .float32 | .float64 => false
  | _ => true

/-- Reflected native type descriptors (`dffi::Type` and its subclasses).
A pointer carries its pointee type together with the const-qualification
of the pointee (`QualType`).  Struct and union types are identified
by name and carry the size and alignment computed by the (external)
type-descriptor system; their field lists are not needed by the
operations modeled here. -/
inductive CType where
  | basic (k : BasicKind)
  | enum
  | pointer (pointee : CType) (pointeeConst : Bool)
  | array (elem : CType) (count : Nat)
  | tstruct (name : String) (size align : Nat)
  | tunion (name : String) (size align : Nat)
  | func (params : List CType) (ret : Option CType)

/-- `EnumType::IntType` is `int`, i.e. a 32-bit signed integer. -/
def enumIntKind : BasicKind := .int32

/-- `Type::getSize`. -/
def CType.size : CType → Nat
  | .basic k => k.size
  | .enum => enumIntKind.size
  | .pointer _ _ => ptrSize
  | .array e n => e.size * n
  | .tstruct _ s _ => s
  | .tunion _ s _ => s
  | .func _ _ => 0

/-- `Type::getAlign`. -/
def CType.align : CType → Nat
  | .basic k => k.size
  | .enum => enumIntKind.size
  | .pointer _ _ => ptrSize
  | .array e _ => e.align
  | .tstruct _ _ a => a
  | .tunion _ _ a => a
  | .func _ _ => 1

/-- `py::format_descriptor<T>::format()` for the C type of each basic
kind (python struct-module format characters). -/
def BasicKind.formatDescriptor : BasicKind → String
  | .char => "b"
  | .uint8 => "B"
  | .uint16 => "H"
  | .uint32 => "I"
  | .uint64 => "Q"
  | .int8 => "b"
  | .int16 => "h"
  | .int32 => "i"
  | .int64 => "q"
  | .float32 => "f"
  | .float64 => "d"

/-- `getFormatDescriptor` (cobj.cpp): basic types map through the
`HANDLE_BASICTY` table; every other type falls back to
`std::to_string(Ty->getSize()) + "B"`. -/
def getFormatDescriptor (ty : CType) : String :=
  match ty with
  | .basic k => k.formatDescriptor
  | _ => toString ty.size ++ "B"

/-! ### Byte-addressed memory -/

/-- Byte-addressed memory. -/
def Mem : Type := Nat → Nat

/-- Read one byte (cells are normalized modulo 256 on read). -/
def Mem.byte (m : Mem) (p : Nat) : Nat := m p % 256

/-- Write one byte. -/
def Mem.setByte (m : Mem) (p v : Nat) : Mem :=
  fun q => if q = p then v % 256 else m q

/-- Read `n` bytes little-endian starting at `p`. -/
def Mem.readLE (m : Mem) (p : Nat) : Nat → Nat
  | 0 => 0
  | n + 1 => m.byte p + 256 * m.readLE (p + 1) n

/-- Write the `n` low-order bytes of `v` little-endian starting at `p`. -/
def Mem.writeLE (m : Mem) (p : Nat) : Nat → Nat → Mem
  | 0, _ => m
  | n + 1, v => (m.setByte p (v % 256)).writeLE (p + 1) n (v / 256)

/-- Copy `n` bytes from address `src` to address `dst` (`memcpy`). -/
def Mem.copy (m : Mem) (dst src : Nat) : Nat → Mem
  | 0 => m
  | n + 1 => (m.setByte dst (m.byte src)).copy (dst + 1) (src + 1) n

/-! ### Errors, typed memory handles, host values -/

/-- Failure modes of the binding layer.  `typeError` is the `TypeError`
exception of the bindings; `castError` is a failed pybind `cast<T>` /
`dyn_cast<T>`; `assertFail` is a violated C `assert` (a debug-build
abort, not an exception). -/
inductive Err where
  | typeError (msg : String)
  | castError (msg : String)
  | assertFail (msg : String)
  deriving DecidableEq, Repr

/-- Whether a handle owns its backing storage (`Data<T>`: view vs owned). -/
inductive Ownership where
  | view
  | owned
  deriving DecidableEq, Repr

/-- The `CObj` class hierarchy: typed memory handles.
* `basicObj` (`CBasicObj<T>`): `k` is the machine type `T` of the stored
  scalar, `ty` the declared descriptor, `value` the stored bit pattern.
* `pointerObj` (`CPointerObj`): `ptrVal` is the stored address value
  returned by `getPtr()`.
* `arrayObj` / `structObj` / `unionObj`: `dataAddr` is `getData()`, the
  address of the `ty.size`-byte payload.
* `funcObj` (`CFunction`): wraps a native callable at `fnAddr`. -/
inductive CObj where
  | basicObj (k : BasicKind) (ty : CType) (value : Nat) (own : Ownership)
  | pointerObj (ty : CType) (ptrVal : Nat) (own : Ownership)
  | arrayObj (ty : CType) (dataAddr : Nat) (own : Ownership)
  | structObj (ty : CType) (dataAddr : Nat) (own : Ownership)
  | unionObj (ty : CType) (dataAddr : Nat) (own : Ownership)
  | funcObj (ty : CType) (fnAddr : Nat)

/-- `CObj::getType`. -/
def CObj.getType : CObj → CType
  | .basicObj _ ty _ _ => ty
  | .pointerObj ty _ _ => ty
  | .arrayObj ty _ _ => ty
  | .structObj ty _ _ => ty
  | .unionObj ty _ _ => ty
  | .funcObj ty _ => ty

/-- `CObj::getSize` (`getType()->getSize()`). -/
def CObj.getSize (o : CObj) : Nat := o.getType.size

/-- Host (python) values, as the marshaling code distinguishes them:
* `scalar`: a numeric value, carried as the bit pattern of the C scalar
  it converts to;
* `str`: a unicode string (`PyUnicode_Check` succeeds);
* `bytes`: a bytes object, exposing its byte buffer at `bufAddr`
  (`PYBIND11_BYTES_AS_STRING`);
* `buffer`: an object exposing the buffer protocol with the given
  dimensionality, element format, writability, and base address;
* `obj`: a wrapped `CObj` handle;
* `none_`: `py::none`. -/
inductive PyObj where
  | scalar (bits : Nat)
  | str (s : String)
  | bytes (bufAddr : Nat) (content : List Nat)
  | buffer (ndim : Nat) (format : String) (writable : Bool) (bufAddr : Nat)
  | obj (h : CObj)
  | none_

/-- `Obj.cast<T>()` for a scalar machine type `T` of kind `k`: a host
numeric value yields its bit pattern reduced to the width of `T`; conversions
from other host objects are performed by external binding machinery and
are not modeled (they fail here). -/
def scalarCast (k : BasicKind) (o : PyObj) : Except Err Nat :=
  match o with
  | .scalar bits => .ok (bits % 2 ^ (8 * k.size))
  | _ => .error (.castError "cannot convert the host value to the requested C scalar type")

/-! ### ValueSetter: `set(descriptor, address, hostValue)` -/

namespace ValueSetter

/-- `ValueSetter::case_basic<T>`: `*reinterpret_cast<T*>(Ptr) = Obj.cast<T>()`. -/
def case_basic (k : BasicKind) (mem : Mem) (ptr : Nat) (o : PyObj) : Except Err Mem := do
  let v ← scalarCast k o
  return mem.writeLE ptr k.size v

/-- `ValueSetter::case_pointer`: the host value must be a `CPointerObj`;
its `getPtr()` value is stored at `Ptr`. -/
def case_pointer (mem : Mem) (ptr : Nat) (o : PyObj) : Except Err Mem :=
  match o with
  | .obj (.pointerObj _ pv _) => .ok (mem.writeLE ptr ptrSize pv)
  | _ => .error (.castError "cannot cast the host value to CPointerObj")

/-- `ValueSetter::case_composite` for structs: the host value must be a
`CStructObj`; `memcpy(Ptr, CObj.getData(), CObj.getSize())`. -/
def case_composite_struct (mem : Mem) (ptr : Nat) (o : PyObj) : Except Err Mem :=
  match o with
  | .obj (.structObj sty a _) => .ok (mem.copy ptr a (CType.size sty))
  | _ => .error (.castError "cannot cast the host value to CStructObj")

/-- `ValueSetter::case_composite` for unions. -/
def case_composite_union (mem : Mem) (ptr : Nat) (o : PyObj) : Except Err Mem :=
  match o with
  | .obj (.unionObj uty a _) => .ok (mem.copy ptr a (CType.size uty))
  | _ => .error (.castError "cannot cast the host value to CUnionObj")

/-- `ValueSetter::case_array`: the host value must be a `CArrayObj`;
`memcpy(Ptr, ArrayObj.getData(), Ty->getSize())`. -/
def case_array (ty : CType) (mem : Mem) (ptr : Nat) (o : PyObj) : Except Err Mem :=
  match o with
  | .obj (.arrayObj _ a _) => .ok (mem.copy ptr a ty.size)
  | _ => .error (.castError "cannot cast the host value to CArrayObj")

/-- `TypeDispatcher<ValueSetter>::switch_`: dispatch on the type kind.
`case_enum` delegates to `case_basic<EnumType::IntType>`; `case_func`
raises `TypeError`. -/
def switch_ (ty : CType) (mem : Mem) (ptr : Nat) (o : PyObj) : Except Err Mem :=
  match ty with
  | .basic k => case_basic k mem ptr o
  | .enum => case_basic enumIntKind mem ptr o
  | .pointer _ _ => case_pointer mem ptr o
  | .array _ _ => case_array ty mem ptr o
  | .tstruct _ _ _ => case_composite_struct mem ptr o
  | .tunion _ _ _ => case_composite_union mem ptr o
  | .func _ _ => .error (.typeError "unable to set a value to a function!")

end ValueSetter

/-! ### ValueGetter: `get(descriptor, address)` -/

namespace ValueGetter

/-- `TypeDispatcher<ValueGetter>::switch_`.  Basic and enum read the
scalar bit pattern; pointer, array, struct, union produce fresh *view*
handles onto the location; `case_func` raises `TypeError`. -/
def switch_ (ty : CType) (mem : Mem) (ptr : Nat) : Except Err PyObj :=
  match ty with
  | .basic k => .ok (.scalar (mem.readLE ptr k.size))
  | .enum => .ok (.scalar (mem.readLE ptr enumIntKind.size))
  | .pointer _ _ => .ok (.obj (.pointerObj ty (mem.readLE ptr ptrSize) .view))
  | .array _ _ => .ok (.obj (.arrayObj ty ptr .view))
  | .tstruct _ _ _ => .ok (.obj (.structObj ty ptr .view))
  | .tunion _ _ _ => .ok (.obj (.unionObj ty ptr .view))
  | .func _ _ => .error (.typeError "unable to get a value as a function!")

end ValueGetter

/-! ### Argument conversion for native calls (`ConvertArgsSwitch`) -/

/-- Transient state of the argument binding of one call: `ObjsHolder` (owned C
objects kept alive for the call), `PyObjsHolder` (python objects kept
alive for the call, e.g. encoded strings), and an allocator cursor
handing out fresh addresses for transient allocations. -/
structure ConvState where
  holders : List CObj
  pyHolders : List PyObj
  nextAddr : Nat

/-- UTF-8 encoding of a host string (`PyUnicode_AsUTF8String`), as a byte
list.  Lean strings are valid unicode, so the encoding is total; the
encoding-failure path of the source concerns host strings (lone
surrogates) that have no counterpart here. -/
def utf8Bytes (s : String) : List Nat :=
  s.toUTF8.toList.map (fun b => b.toNat)

/-- `dyn_cast<BasicType>(PteTy.getType())` followed by
`getBasicKind() == BasicType::Char`. -/
def isCharBasic : CType → Bool
  | .basic .char => true
  | _ => false

namespace ConvertArgsSwitch

/-- `ConvertArgsSwitch::checkType`: in the source the declared-type
equality test (`O->getType() != Ty` raising `TypeError`) is commented
out, so the handle is returned unchanged whatever `ty` is. -/
def checkType (o : CObj) (ty : CType) : CObj := o

/-- `ConvertArgsSwitch::case_basic<T>`: a `CBasicObj<T>` handle of the
same machine type `T` is reused as-is; otherwise a transient owned
scalar holding `O.cast<T>()` is created and retained in the holders. -/
def case_basic (k : BasicKind) (ty : CType) (st : ConvState) (o : PyObj) :
    Except Err (CObj × ConvState) :=
  match o with
  | .obj (.basicObj k2 bty v ow) =>
      if k2 = k then .ok (.basicObj k2 bty v ow, st)
      else .error (.castError "cannot convert the host value to the requested C scalar type")
  | _ => do
      let v ← scalarCast k o
      let ret := CObj.basicObj k ty v .owned
      .ok (ret, { st with holders := st.holders ++ [ret] })

/-- `O.cast<py::buffer>()` followed by `B.request(isWritable)`: yields the
dimensionality, element format and base address of the buffer.  A bytes
object exposes a read-only one-dimensional byte buffer (format `B`);
requesting write access to a read-only buffer fails. -/
def bufferRequest (isWritable : Bool) (o : PyObj) : Except Err (Nat × String × Nat) :=
  match o with
  | .buffer ndim fmt writ a =>
      if isWritable && !writ then .error (.castError "buffer is not writable")
      else .ok (ndim, fmt, a)
  | .bytes a _ =>
      if isWritable then .error (.castError "buffer is not writable")
      else .ok (1, "B", a)
  | _ => .error (.castError "object does not expose the buffer protocol")

/-- The buffer path of `ConvertArgsSwitch::case_pointer`: request a
buffer, reject dimensionality other than 1, reject an element format
other than `getFormatDescriptor(PteTy)` (the message carries both), and
otherwise build an owned pointer handle to the base of the buffer. -/
def bufferPath (pointee : CType) (ty : CType) (isWritable : Bool) (st : ConvState) (o : PyObj) :
    Except Err (CObj × ConvState) := do
  let (ndim, fmt, a) ← bufferRequest isWritable o
  if ndim ≠ 1 then
    .error (.typeError ("buffer should have only one dimension, got " ++ (toString ndim ++ "!")))
  else
    let expected := getFormatDescriptor pointee
    if fmt ≠ expected then
      .error (.typeError ("buffer doesn\x27t have the good format, got \x27" ++
        (fmt ++ ("\x27, expected \x27" ++ (expected ++ "\x27")))))
    else
      let ret := CObj.pointerObj ty a .owned
      .ok (ret, { st with holders := st.holders ++ [ret] })

/-- `ConvertArgsSwitch::case_pointer`: a `CPointerObj` handle is used
as-is after `checkType`; otherwise, when the pointee is a const `char`,
the string shortcut runs (a unicode string is UTF-8-encoded into a
transient bytes object retained in `PyObjsHolder`; the own buffer of a
bytes object is used directly; anything else raises `TypeError`); otherwise
the buffer path runs. -/
def case_pointer (pointee : CType) (pointeeConst : Bool) (ty : CType) (st : ConvState)
    (o : PyObj) : Except Err (CObj × ConvState) :=
  match o with
  | .obj (.pointerObj pty pv ow) => .ok (checkType (.pointerObj pty pv ow) ty, st)
  | _ =>
    let isWritable := !pointeeConst
    if pointeeConst && isCharBasic pointee then
      match o with
      | .str s =>
          let enc := utf8Bytes s
          let buf := PyObj.bytes st.nextAddr enc
          let ret := CObj.pointerObj ty st.nextAddr .owned
          .ok (ret, { holders := st.holders ++ [ret],
                      pyHolders := st.pyHolders ++ [buf],
                      nextAddr := st.nextAddr + (enc.length + 1) })
      | .bytes a _ =>
          let ret := CObj.pointerObj ty a .owned
          .ok (ret, { st with holders := st.holders ++ [ret] })
      | _ => .error (.typeError "Unable to extract string contents! (invalid type)")
    else
      bufferPath pointee ty isWritable st o

/-- `ConvertArgsSwitch::case_composite` for structs:
`checkType(O.cast<CStructObj*>(), Ty)`. -/
def case_composite_struct (ty : CType) (st : ConvState) (o : PyObj) :
    Except Err (CObj × ConvState) :=
  match o with
  | .obj (.structObj sty a ow) => .ok (checkType (.structObj sty a ow) ty, st)
  | _ => .error (.castError "cannot cast the host value to CStructObj")

/-- `ConvertArgsSwitch::case_composite` for unions. -/
def case_composite_union (ty : CType) (st : ConvState) (o : PyObj) :
    Except Err (CObj × ConvState) :=
  match o with
  | .obj (.unionObj uty a ow) => .ok (checkType (.unionObj uty a ow) ty, st)
  | _ => .error (.castError "cannot cast the host value to CUnionObj")

/-- `ConvertArgsSwitch::case_array`: `checkType(O.cast<CArrayObj*>(), Ty)`. -/
def case_array (ty : CType) (st : ConvState) (o : PyObj) :
    Except Err (CObj × ConvState) :=
  match o with
  | .obj (.arrayObj aty a ow) => .ok (checkType (.arrayObj aty a ow) ty, st)
  | _ => .error (.castError "cannot cast the host value to CArrayObj")

/-- `ConvertArgsSwitch::case_func`: `checkType(O.cast<CFunction*>(), Ty)`. -/
def case_func (ty : CType) (st : ConvState) (o : PyObj) :
    Except Err (CObj × ConvState) :=
  match o with
  | .obj (.funcObj fty a) => .ok (checkType (.funcObj fty a) ty, st)
  | _ => .error (.castError "cannot cast the host value to CFunction")

/-- `ConvertArgs::switch_` (`TypeDispatcher<ConvertArgsSwitch>`).
`case_enum` delegates to `case_basic<EnumType::IntType>` applied to the
underlying basic type of the enum. -/
def switch_ (ty : CType) (st : ConvState) (o : PyObj) : Except Err (CObj × ConvState) :=
  match ty with
  | .basic k => case_basic k ty st o
  | .enum => case_basic enumIntKind (.basic enumIntKind) st o
  | .pointer p c => case_pointer p c ty st o
  | .array _ _ => case_array ty st o
  | .tstruct _ _ _ => case_composite_struct ty st o
  | .tunion _ _ _ => case_composite_union ty st o
  | .func _ _ => case_func ty st o

end ConvertArgsSwitch

/-! ### The call orchestrator (`CFunction::call`) -/

/-- The conversion loop of `CFunction::call`: iterate over the supplied
arguments in order, converting argument `I` against parameter `I` and
threading the transient-holder state.  Indexing past the end of the
parameter list would be undefined behavior in the source; it is
unreachable behind the arity assertion. -/
def convertLoop : List CType → List PyObj → ConvState →
    Except Err (List CObj × ConvState)
  | _, [], st => .ok ([], st)
  | p :: ps, a :: as, st => do
      let (o, st2) ← ConvertArgsSwitch.switch_ p st a
      let (rest, st3) ← convertLoop ps as st2
      .ok (o :: rest, st3)
  | [], _ :: _, _ => .error (.assertFail "out-of-bounds parameter index")

namespace CFunction

/-- `CFunction::call`, up to the opaque native invocation (`NF_.call`):
the arity check is a C `assert` — a debug-build abort with no
`TypeError` path and no check at all in release builds — followed by
per-parameter argument conversion in declaration order.  Returns the
converted argument handles (whose data pointers are what the native
call receives) together with the final transient-holder state. -/
def call (params : List CType) (args : List PyObj) (st : ConvState) :
    Except Err (List CObj × ConvState) :=
  if args.length = params.length then convertLoop params args st
  else .error (.assertFail "Len == FTy->getParams().size()")

end CFunction

/-! ### Casts -/

namespace CPointerObj

/-- `CPointerObj::cast`: to any `BasicType` whose size equals
`sizeof(uintptr_t)`, an owned `CBasicObj<uintptr_t>` holding the numeric
value of `getPtr()` (tagged with the requested basic type); to any
pointer type, an owned retyped pointer with the same address; anything
else yields no handle. -/
def cast (ptrVal : Nat) (toTy : CType) : Option CObj :=
  match toTy with
  | .basic k =>
      if k.size = ptrSize then some (.basicObj .uint64 toTy ptrVal .owned) else none
  | .pointer _ _ => some (.pointerObj toTy ptrVal .owned)
  | _ => none

end CPointerObj

namespace CArrayObj

/-- `CArrayObj::cast`: to an array type of equal size whose alignment
divides `getData()`, a *view* array handle at the same address; to any
pointer type, an owned pointer to `getData()`; anything else yields no
handle. -/
def cast (selfTy : CType) (dataAddr : Nat) (toTy : CType) : Option CObj :=
  match toTy with
  | .array _ _ =>
      if toTy.size = selfTy.size ∧ dataAddr % toTy.align = 0 then
        some (.arrayObj toTy dataAddr .view)
      else none
  | .pointer _ _ => some (.pointerObj toTy dataAddr .owned)
  | _ => none

end CArrayObj

namespace CCompositeObj

/-- `CCompositeObj::cast`: to any pointer type, an owned pointer to
`getData()`; to a struct or union type of equal size whose alignment
divides `getData()`, a *view* handle of the corresponding variant at the
same address; anything else yields no handle. -/
def cast (selfTy : CType) (dataAddr : Nat) (toTy : CType) : Option CObj :=
  match toTy with
  | .pointer _ _ => some (.pointerObj toTy dataAddr .owned)
  | .tstruct _ _ _ =>
      if toTy.size = selfTy.size ∧ dataAddr % toTy.align = 0 then
        some (.structObj toTy dataAddr .view)
      else none
  | .tunion _ _ _ =>
      if toTy.size = selfTy.size ∧ dataAddr % toTy.align = 0 then
        some (.unionObj toTy dataAddr .view)
      else none
  | _ => none

end CCompositeObj

/-! ### Memory-view export -/

/-- A `py::memoryview` built from a `py::buffer_info{ptr, itemsize,
format, size}`: base address, element size, element format, total byte
size. -/
structure MemView where
  base : Nat
  itemsize : Nat
  format : String
  size : Nat
  deriving DecidableEq, Repr

/-- `strlen` at address `p`: the distance to the first zero byte, given
that one exists. -/
def strlen (mem : Mem) (p : Nat) (h : ∃ i, mem.byte (p + i) = 0) : Nat :=
  Nat.find h

namespace CPointerObj

/-- `CPointerObj::getMemoryView`: a view over `Len` elements of the
pointee type starting at `getPtr()`. -/
def getMemoryView (pointee : CType) (ptrVal : Nat) (len : Nat) : MemView :=
  { base := ptrVal
    itemsize := pointee.size
    format := getFormatDescriptor pointee
    size := pointee.size * len }

/-- `CPointerObj::getMemoryViewCStr`: unless the pointee type is the
basic `char` kind, raises `TypeError`; otherwise a memory view of
`strlen(getPtr())` elements starting at `getPtr()`. -/
def getMemoryViewCStr (pointee : CType) (ptrVal : Nat) (mem : Mem)
    (h : ∃ i, mem.byte (ptrVal + i) = 0) : Except Err MemView :=
  match pointee with
  | .basic .char => .ok (getMemoryView (.basic .char) ptrVal (strlen mem ptrVal h))
  | _ => .error (.typeError "pointer must be a pointer to char*!")

end CPointerObj

/-! ### Helper lemmas about the byte memory -/

theorem Mem.byte_writeLE_of_lt (n : Nat) :
    ∀ (m : Mem) (p v q : Nat), q < p → (m.writeLE p n v).byte q = m.byte q := by
  induction n with
  | zero => intro m p v q h; rfl
  | succ n ih =>
      intro m p v q h
      show ((m.setByte p (v % 256)).writeLE (p + 1) n (v / 256)).byte q = m.byte q
      rw [ih _ _ _ _ (Nat.lt_succ_of_lt h)]
      simp [Mem.byte, Mem.setByte, Nat.ne_of_lt h]

theorem Mem.readLE_writeLE (n : Nat) :
    ∀ (m : Mem) (p v : Nat), (m.writeLE p n v).readLE p n = v % 2 ^ (8 * n) := by
  induction n with
  | zero => intro m p v; simp [Mem.readLE, Mem.writeLE, Nat.mod_one]
  | succ n ih =>
      intro m p v
      show Mem.readLE ((m.setByte p (v % 256)).writeLE (p + 1) n (v / 256)) p (n + 1) =
        v % 2 ^ (8 * (n + 1))
      simp only [Mem.readLE]
      rw [Mem.byte_writeLE_of_lt n _ (p + 1) _ p (Nat.lt_succ_self p), ih]
      simp only [Mem.byte, Mem.setByte, if_pos rfl]
      rw [show 8 * (n + 1) = 8 + 8 * n by ring, pow_add]
      rw [show (2 : Nat) ^ 8 = 256 by norm_num]
      rw [Nat.mod_mul]
      simp [Nat.mod_mod_of_dvd]

/-! ### Shared concrete fixtures -/

/-- All-zero memory. -/
def mem0 : Mem := fun _ => 0

/-- Memory holding three non-null bytes then a null terminator at 3. -/
def mem1 : Mem := fun n => if n < 3 then 65 else 0

/-- `mem1` has a null byte reachable from address 0. -/
theorem mem1_null : ∃ i, mem1.byte (0 + i) = 0 := ⟨3, by decide⟩

/-- An empty transient-holder state. -/
def st0 : ConvState := ⟨[], [], 1000⟩

/-- The parameter list of `int add(int, int)`. -/
def addParams : List CType := [.basic .int32, .basic .int32]

/-- Whether a call outcome is the `TypeError` of the bindings. -/
def isTypeError {α : Type} : Except Err α → Bool
  | .error (.typeError _) => true
  | _ => false

/-! ### Claims -/

/-- C1 counterexample: calling `int add(int,int)` with a single argument
does not fail with `TypeError`: the arity check in `CFunction::call` is
a C `assert`, so the mismatch is an assertion failure (and is not
checked at all in release builds). -/
theorem call_arity_mismatch_not_typeError :
    isTypeError (CFunction.call addParams [.scalar 2] st0) = false ∧
    CFunction.call addParams [.scalar 2] st0 =
      .error (.assertFail "Len == FTy->getParams().size()") :=
  ⟨rfl, rfl⟩

/-- C1 (amended): if the number of host-supplied arguments differs from
the declared parameter count, `CFunction::call` fails the arity
`assert` — an assertion failure, not a `TypeError` — before any argument
conversion begins. -/
theorem call_arity_mismatch_assertFail (params : List CType) (args : List PyObj)
    (st : ConvState) (h : args.length ≠ params.length) :
    CFunction.call params args st =
      .error (.assertFail "Len == FTy->getParams().size()") := by
  simp [CFunction.call, h]

/-- C1 witness: the amended claim at `int add(int,int)` applied to one
argument. -/
theorem call_arity_mismatch_assertFail_witness :
    CFunction.call addParams [.scalar 2] st0 =
      .error (.assertFail "Len == FTy->getParams().size()") :=
  call_arity_mismatch_assertFail addParams [.scalar 2] st0 (by decide)

/-- C2 counterexample: a struct handle whose declared type (`B`, size 12)
differs from the declared parameter type (`A`, size 8) is accepted
unchanged by the argument converter — no `TypeError` — because
the declared-type equality test of `ConvertArgsSwitch::checkType` is
commented out in the source. -/
theorem convert_composite_type_mismatch_accepted :
    ConvertArgsSwitch.case_composite_struct (.tstruct "A" 8 4) st0
      (.obj (.structObj (.tstruct "B" 12 4) 64 .view)) =
    .ok (.structObj (.tstruct "B" 12 4) 64 .view, st0) := rfl

/-- C2 (amended): during argument conversion a host value that is not a
handle of the required variant class (struct/union/array/function)
fails with a pybind cast error, but a handle of the required class is
accepted unchanged even when its declared type differs from the
parameter type — the declared-type check (`checkType`) is disabled; the
same holds for Pointer handles. -/
theorem convert_handle_class_rule (ty sty uty aty fty pty p : CType) (c : Bool)
    (a pv fa bits : Nat) (ow : Ownership) (st : ConvState) :
    (ConvertArgsSwitch.case_composite_struct ty st (.obj (.structObj sty a ow)) =
      .ok (.structObj sty a ow, st)) ∧
    (ConvertArgsSwitch.case_composite_union ty st (.obj (.unionObj uty a ow)) =
      .ok (.unionObj uty a ow, st)) ∧
    (ConvertArgsSwitch.case_array ty st (.obj (.arrayObj aty a ow)) =
      .ok (.arrayObj aty a ow, st)) ∧
    (ConvertArgsSwitch.case_func ty st (.obj (.funcObj fty fa)) =
      .ok (.funcObj fty fa, st)) ∧
    (ConvertArgsSwitch.case_pointer p c ty st (.obj (.pointerObj pty pv ow)) =
      .ok (.pointerObj pty pv ow, st)) ∧
    (ConvertArgsSwitch.case_composite_struct ty st (.obj (.unionObj uty a ow)) =
      .error (.castError "cannot cast the host value to CStructObj")) ∧
    (ConvertArgsSwitch.case_composite_struct ty st (.scalar bits) =
      .error (.castError "cannot cast the host value to CStructObj")) ∧
    (ConvertArgsSwitch.case_array ty st (.obj (.structObj sty a ow)) =
      .error (.castError "cannot cast the host value to CArrayObj")) :=
  ⟨rfl, rfl, rfl, rfl, rfl, rfl, rfl, rfl⟩

/-- C3: on a Function-typed location both the value setter and the value
getter fail with `TypeError` (through `ValueSetter::case_func` and
`ValueGetter::case_func`); the setter returns no updated memory, so no
memory is modified. -/
theorem get_set_function_typeError (ps : List CType) (r : Option CType) (mem : Mem)
    (ptr : Nat) (o : PyObj) :
    ValueSetter.switch_ (.func ps r) mem ptr o =
      .error (.typeError "unable to set a value to a function!") ∧
    ValueGetter.switch_ (.func ps r) mem ptr =
      .error (.typeError "unable to get a value as a function!") :=
  ⟨rfl, rfl⟩

/-- C4: the string shortcut of `ConvertArgsSwitch::case_pointer` — UTF-8
encoding a host string into a transient retained for the call and
pointing at the encoded bytes — runs exactly for a const `char` pointee
and a host string; with a writable (non-const) `char` pointee every
non-handle value goes through the buffer path (so a host string then
fails, not being a buffer), and a const pointee other than `char` also
goes through the buffer path. -/
theorem string_shortcut_rule (pointee ty : CType) (st : ConvState) (s : String)
    (n : Nat) (fmt : String) (w : Bool) (a : Nat) (content : List Nat) :
    (ConvertArgsSwitch.case_pointer (.basic .char) true ty st (.str s) =
      .ok (.pointerObj ty st.nextAddr .owned,
        { holders := st.holders ++ [.pointerObj ty st.nextAddr .owned],
          pyHolders := st.pyHolders ++ [.bytes st.nextAddr (utf8Bytes s)],
          nextAddr := st.nextAddr + ((utf8Bytes s).length + 1) })) ∧
    (ConvertArgsSwitch.case_pointer pointee false ty st (.str s) =
      ConvertArgsSwitch.bufferPath pointee ty true st (.str s)) ∧
    (ConvertArgsSwitch.case_pointer pointee false ty st (.buffer n fmt w a) =
      ConvertArgsSwitch.bufferPath pointee ty true st (.buffer n fmt w a)) ∧
    (ConvertArgsSwitch.case_pointer pointee false ty st (.bytes a content) =
      ConvertArgsSwitch.bufferPath pointee ty true st (.bytes a content)) ∧
    (ConvertArgsSwitch.case_pointer (.basic .char) false ty st (.str s) =
      .error (.castError "object does not expose the buffer protocol")) ∧
    (ConvertArgsSwitch.case_pointer (.basic .int32) true ty st (.str s) =
      ConvertArgsSwitch.bufferPath (.basic .int32) ty false st (.str s)) ∧
    (ConvertArgsSwitch.case_pointer .enum true ty st (.str s) =
      ConvertArgsSwitch.bufferPath .enum ty false st (.str s)) :=
  ⟨rfl, rfl, rfl, rfl, rfl, rfl, rfl⟩

/-- C5: in the buffer path of pointer-argument conversion a buffer of
dimensionality other than 1 fails with `TypeError`, and a buffer whose
element format differs from the native format of the pointee type fails with
a `TypeError` whose message contains both the actual and the expected
format. -/
theorem bufferPath_dim_format_typeError (pointee ty : CType) (st : ConvState)
    (iw : Bool) (ndim : Nat) (fmt : String) (a : Nat)
    (hdim : ndim ≠ 1) (hfmt : fmt ≠ getFormatDescriptor pointee) :
    (ConvertArgsSwitch.bufferPath pointee ty iw st (.buffer ndim fmt true a) =
      .error (.typeError
        ("buffer should have only one dimension, got " ++ (toString ndim ++ "!")))) ∧
    (∃ msg, ConvertArgsSwitch.bufferPath pointee ty iw st (.buffer 1 fmt true a) =
        .error (.typeError msg) ∧
      ∃ pre mid post,
        msg = pre ++ (fmt ++ (mid ++ (getFormatDescriptor pointee ++ post)))) := by
  constructor
  · simp [ConvertArgsSwitch.bufferPath, ConvertArgsSwitch.bufferRequest, Bind.bind,
      Except.bind, hdim]
  · refine ⟨"buffer doesn\x27t have the good format, got \x27" ++
      (fmt ++ ("\x27, expected \x27" ++ (getFormatDescriptor pointee ++ "\x27"))), ?_,
      "buffer doesn\x27t have the good format, got \x27", "\x27, expected \x27", "\x27", rfl⟩
    simp [ConvertArgsSwitch.bufferPath, ConvertArgsSwitch.bufferRequest, Bind.bind,
      Except.bind, hfmt]

/-- C5 witness: the buffer rejections at an `int32` pointee, a 2-D buffer
and a `float` format. -/
theorem bufferPath_dim_format_typeError_witness :
    (ConvertArgsSwitch.bufferPath (.basic .int32) (.pointer (.basic .int32) true) false st0
      (.buffer 2 "f" true 0) =
      .error (.typeError
        ("buffer should have only one dimension, got " ++ (toString 2 ++ "!")))) ∧
    (∃ msg, ConvertArgsSwitch.bufferPath (.basic .int32) (.pointer (.basic .int32) true) false
        st0 (.buffer 1 "f" true 0) = .error (.typeError msg) ∧
      ∃ pre mid post,
        msg = pre ++ ("f" ++ (mid ++ (getFormatDescriptor (.basic .int32) ++ post)))) :=
  bufferPath_dim_format_typeError (.basic .int32) (.pointer (.basic .int32) true) st0 false
    2 "f" 0 (by decide) (by decide)

/-- C6 counterexample: `Float64` is not an integer kind, yet casting a
pointer handle to `double` (size 8, equal to the address width) returns
a handle rather than no handle: `CPointerObj::cast` only checks
`dyn_cast<BasicType>` and the size. -/
theorem pointer_cast_float64_returns_handle :
    BasicKind.isInteger .float64 = false ∧
    CPointerObj.cast 4096 (.basic .float64) =
      some (.basicObj .uint64 (.basic .float64) 4096 .owned) :=
  ⟨rfl, rfl⟩

/-- C6 (amended): casting a Pointer handle to a Basic type (integer or
floating-point alike) succeeds exactly when the size of that type equals the
platform address width, producing an owned scalar holding the numeric
address value of the pointer; casting to any pointer type succeeds; casting to
any type that is neither a Basic type of that size nor a pointer type
returns no handle. -/
theorem pointer_cast_rule (pv : Nat) (k : BasicKind) (p : CType) (c : Bool)
    (e : CType) (n : Nat) (nm : String) (sz al : Nat) (ps : List CType)
    (r : Option CType) :
    (CPointerObj.cast pv (.basic k) =
      if k.size = ptrSize then some (.basicObj .uint64 (.basic k) pv .owned)
      else none) ∧
    (CPointerObj.cast pv (.pointer p c) = some (.pointerObj (.pointer p c) pv .owned)) ∧
    (CPointerObj.cast pv .enum = none) ∧
    (CPointerObj.cast pv (.array e n) = none) ∧
    (CPointerObj.cast pv (.tstruct nm sz al) = none) ∧
    (CPointerObj.cast pv (.tunion nm sz al) = none) ∧
    (CPointerObj.cast pv (.func ps r) = none) :=
  ⟨rfl, rfl, rfl, rfl, rfl, rfl, rfl⟩

/-- C7: an array-to-array cast, and a struct/union-to-struct/union cast,
succeeds if and only if the target size equals the source size and the
source data address is aligned to the target alignment; on success it
produces a view handle at the same address, otherwise no result. -/
theorem array_composite_cast_rule (selfTy : CType) (a : Nat) (e2 : CType) (n2 : Nat)
    (nm : String) (tsz tal : Nat) :
    (CArrayObj.cast selfTy a (.array e2 n2) =
      if (CType.array e2 n2).size = selfTy.size ∧ a % (CType.array e2 n2).align = 0 then
        some (.arrayObj (.array e2 n2) a .view)
      else none) ∧
    (CCompositeObj.cast selfTy a (.tstruct nm tsz tal) =
      if tsz = selfTy.size ∧ a % tal = 0 then
        some (.structObj (.tstruct nm tsz tal) a .view)
      else none) ∧
    (CCompositeObj.cast selfTy a (.tunion nm tsz tal) =
      if tsz = selfTy.size ∧ a % tal = 0 then
        some (.unionObj (.tunion nm tsz tal) a .view)
      else none) :=
  ⟨rfl, rfl, rfl⟩

/-- C8: for every Basic kind and every representable bit pattern
(including 0, the extremes, and the NaN/Inf patterns of the float
kinds), reading a location right after writing a value there yields the
same value back. -/
theorem basic_get_after_set (k : BasicKind) (mem : Mem) (addr v : Nat)
    (h : v < 2 ^ (8 * k.size)) :
    ∃ mem2, ValueSetter.switch_ (.basic k) mem addr (.scalar v) = .ok mem2 ∧
      ValueGetter.switch_ (.basic k) mem2 addr = .ok (.scalar v) := by
  refine ⟨mem.writeLE addr k.size (v % 2 ^ (8 * k.size)), rfl, ?_⟩
  simp [ValueGetter.switch_, Mem.readLE_writeLE, Nat.mod_eq_of_lt h]

/-- C8 witness: the round trip at `float32` with the quiet-NaN bit
pattern. -/
theorem basic_get_after_set_witness :
    ∃ mem2, ValueSetter.switch_ (.basic .float32) mem0 16 (.scalar 0x7FC00000) = .ok mem2 ∧
      ValueGetter.switch_ (.basic .float32) mem2 16 = .ok (.scalar 0x7FC00000) :=
  basic_get_after_set .float32 mem0 16 0x7FC00000 (by decide)

/-- C9: exporting the bytes behind a pointer handle as a null-terminated memory
view fails with `TypeError` whenever the pointee type is not the basic
`char` kind; for a `char` pointee the view starts at the stored pointer
value, has 1-byte elements, and its element count is the distance to the
first null byte. -/
theorem getMemoryViewCStr_rule (pointee : CType) (pv : Nat) (mem : Mem)
    (h : ∃ i, mem.byte (pv + i) = 0) (hne : pointee ≠ CType.basic .char) :
    (CPointerObj.getMemoryViewCStr (.basic .char) pv mem h =
      .ok { base := pv, itemsize := 1, format := "b", size := strlen mem pv h }) ∧
    mem.byte (pv + strlen mem pv h) = 0 ∧
    (∀ j, j < strlen mem pv h → mem.byte (pv + j) ≠ 0) ∧
    CPointerObj.getMemoryViewCStr pointee pv mem h =
      .error (.typeError "pointer must be a pointer to char*!") := by
  refine ⟨?_, Nat.find_spec h, fun j hj => Nat.find_min h hj, ?_⟩
  · simp [CPointerObj.getMemoryViewCStr, CPointerObj.getMemoryView, strlen,
      getFormatDescriptor, CType.size, BasicKind.size, BasicKind.formatDescriptor,
      Nat.one_mul]
  · cases pointee with
    | basic k =>
        cases k
        case char => exact absurd rfl hne
        all_goals rfl
    | enum => rfl
    | pointer q c => rfl
    | array e n => rfl
    | tstruct s b d => rfl
    | tunion s b d => rfl
    | func qs r => rfl

/-- C9 witness: the `TypeError` on an enum pointee over a memory with a
terminated string at 0. -/
theorem getMemoryViewCStr_rule_witness :
    CPointerObj.getMemoryViewCStr .enum 0 mem1 mem1_null =
      .error (.typeError "pointer must be a pointer to char*!") :=
  (getMemoryViewCStr_rule .enum 0 mem1 mem1_null (fun hc => CType.noConfusion hc)).2.2.2

/-- C10: for a const `char` pointee, a host bytes object is used
directly — the resulting pointer targets the own buffer of the bytes object,
and no transient python object is retained (no encoding, no copy) —
whereas a host text string is UTF-8 encoded into a transient bytes
object that is retained in `PyObjsHolder` for the lifetime of the call, the
pointer targeting the fresh encoded buffer. -/
theorem bytes_direct_str_encoded (ty : CType) (st : ConvState) (a : Nat)
    (content : List Nat) (s : String) :
    (ConvertArgsSwitch.case_pointer (.basic .char) true ty st (.bytes a content) =
      .ok (.pointerObj ty a .owned,
        { st with holders := st.holders ++ [.pointerObj ty a .owned] })) ∧
    ({ st with holders := st.holders ++ [CObj.pointerObj ty a .owned] } :
        ConvState).pyHolders = st.pyHolders ∧
    (ConvertArgsSwitch.case_pointer (.basic .char) true ty st (.str s) =
      .ok (.pointerObj ty st.nextAddr .owned,
        { holders := st.holders ++ [.pointerObj ty st.nextAddr .owned],
          pyHolders := st.pyHolders ++ [.bytes st.nextAddr (utf8Bytes s)],
          nextAddr := st.nextAddr + ((utf8Bytes s).length + 1) })) :=
  ⟨rfl, rfl, rfl⟩

end Cobj
